import Mathlib

/-!
Shallow embedding of the LUT sampling-and-serialization core of
ColorPipe-tools, covering:

* `utils/cube_helper.py` (class `CubeLutHelper`): the Cube format writer;
* `plotThatLut/plot_that_lut.py`: 1D curve and 3D lattice sampling and
  plot-type (topology) resolution;
* `lutLab/lut_to_lut.py`: the conversion driver (preset/arguments check and
  interpolation-mode selection).

Color values are rationals (the Python code computes with floats, but every
value the claims mention is produced by exact arithmetic on small integers,
so ℚ is a faithful carrier).  Side effects (file opening, writes, warning
and error prints) are recorded as an explicit event trace, and a Python
exception is an `Option PyError` paired with the trace of the events that
happened before the raise.  Helper modules of the repository that are not
part of the provided sources (`utils/abstract_lut_helper.py`,
`utils/lut_presets.py`, ...) are modelled from the spec where needed; each
such definition is marked `Modelled from the spec:` in its doc string.
-/

/-- An RGB triple of color values. -/
abbrev RGB : Type := ℚ × ℚ × ℚ

/-- A Python number as found in a preset range: either an int or a float
literal.  The distinction carries the "integer-typed range" information the
cube writer's output-range check branches on. -/
inductive PyNum : Type
  | pint (n : ℤ)
  | pfloat (q : ℚ)
  deriving DecidableEq

/-- Numeric value of a `PyNum`. -/
def PyNum.toRat : PyNum → ℚ
  | .pint n => (n : ℚ)
  | .pfloat q => q

/-- True on Python ints, false on floats. -/
def PyNum.isIntTyped : PyNum → Bool
  | .pint _ => true
  | .pfloat _ => false

/-- Python `str`/`format` rendering of a `PyNum` (model; Python prints
floats with a decimal point, which the claims never depend on). -/
def PyNum.render : PyNum → String
  | .pint n => toString n
  | .pfloat q => toString q

/-- A preset (source: the string-keyed preset dicts of
`utils/lut_presets.py`, with the keys used by `cube_helper.py` and
`lut_to_lut.py` made into typed fields).  `title = none` models the Python
value `None`. -/
structure Preset : Type where
  ptype : String
  ext : String
  input_range : PyNum × PyNum
  output_range : PyNum × PyNum
  out_bitdepth : Option ℕ
  cube_size : ℕ
  title : Option String
  comment : String
  version : String
  deriving DecidableEq

/-- Python exceptions raised by the embedded code. -/
inductive PyError : Type
  | cubeHelperException (msg : String)
  | lutToLutException (msg : String)
  | zeroDivisionError
  deriving DecidableEq

/-- One observable side effect of the writer code: a warning print, an
error print, a file open (`open(path, 'w+')`, which creates or truncates
the file at `path`), a string written to the open file, a file close, or a
success-message print. -/
inductive Event : Type
  | warn (msg : String)
  | errorMsg (msg : String)
  | openFile (path : String)
  | writeStr (s : String)
  | closeFile
  | success (msg : String)
  deriving DecidableEq

/-- Result of running a stateful Python function: the events it performed,
in order, and the exception it raised (`none` when it returned normally). -/
abbrev Outcome : Type := List Event × Option PyError

/-- Python float division: raises `ZeroDivisionError` on a zero divisor. -/
def pydiv (a b : ℚ) : Except PyError ℚ :=
  if b = 0 then Except.error PyError.zeroDivisionError else Except.ok (a / b)

/-- A Python `for` loop that computes one value per element and can raise:
stops at the first exception, otherwise collects the results in order. -/
def map_except {α β : Type} (f : α → Except PyError β) :
    List α → Except PyError (List β)
  | [] => Except.ok []
  | a :: l =>
    match f a with
    | Except.error e => Except.error e
    | Except.ok b =>
      match map_except f l with
      | Except.error e => Except.error e
      | Except.ok bs => Except.ok (b :: bs)

/-- Concatenation of everything written to the output file in a trace: the
persisted file content. -/
def file_content : List Event → String
  | [] => ""
  | Event.writeStr s :: evs => s ++ file_content evs
  | _ :: evs => file_content evs

/-- Payload of the first `writeStr` event of a trace, i.e. the first bytes
that reach the output file. -/
def first_write : List Event → Option String
  | [] => none
  | Event.writeStr s :: _ => some s
  | _ :: evs => first_write evs

/-- Splits the accumulated characters of a string into lines (at each
newline character), mirroring how a text file is read back line by line. -/
def lines_aux : List Char → List Char → List String
  | [], cur => [String.mk cur.reverse]
  | c :: cs, cur =>
    if c = '\n' then String.mk cur.reverse :: lines_aux cs []
    else lines_aux cs (c :: cur)

/-- The lines of a string. -/
def lines_of (s : String) : List String := lines_aux s.toList []

/-- The identity color transform (an identity LUT's processor). -/
def idT : RGB → RGB := fun c => c

/-! ## utils/lut_presets.py and utils/abstract_lut_helper.py (modelled)

These modules are imported by `cube_helper.py` but are not among the
provided sources; the definitions below are modelled from the spec. -/

/-- Modelled from the spec: `presets.FLOAT_BOUNDARY` (utils/lut_presets.py,
not under src/) — the sanity threshold for float output ranges, §4.2:
"emits a non-fatal warning (not an error) if the declared upper bound
exceeds a sanity threshold (e.g., 100.0)". -/
def FLOAT_BOUNDARY : ℚ := 100

/-- Modelled from the spec: `AbstractLUTHelper.is_output_int`
(utils/abstract_lut_helper.py, not under src/) — whether the preset's
output range is integer-typed (§4.2 / §4.5: "integer-range formats"; the
claims: "preset whose output range is integer-typed"). -/
def is_output_int (p : Preset) : Bool :=
  p.output_range.1.isIntTyped && p.output_range.2.isIntTyped

/-- Modelled from the spec: §4.2 `to_output_domain` — linear mapping of a
normalized value into the preset's declared output range; when a bit depth
applies (integer-range output), the result is rounded to the nearest
integer step, ties away from zero. -/
def to_output_domain (value : ℚ) (range : PyNum × PyNum)
    (bit_depth : Option ℕ) : ℚ :=
  let lo := range.1.toRat
  let hi := range.2.toRat
  let lin := lo + value * (hi - lo)
  match bit_depth with
  | none => lin
  | some _ => if 0 ≤ lin then ((⌊lin + 1/2⌋ : ℤ) : ℚ) else ((-⌊-lin + 1/2⌋ : ℤ) : ℚ)

/-- Modelled from the spec: `AbstractLUTHelper._get_rgb_value_line`
(utils/abstract_lut_helper.py, not under src/) — the format-specific
single-sample formatter of §6: one line per sample, the three channel
values mapped into the preset's output range per its range/bit-depth rules
and separated by spaces. -/
def get_rgb_value_line (p : Preset) (rgb : RGB) : String :=
  let m := fun v : ℚ =>
    to_output_domain v p.output_range
      (if is_output_int p then p.out_bitdepth else none)
  toString (m rgb.1) ++ " " ++ toString (m rgb.2.1) ++ " " ++
    toString (m rgb.2.2) ++ "\n"

/-- Modelled from the spec: `AbstractLUTHelper.get_generated_title`
(utils/abstract_lut_helper.py, not under src/) — §4.5: "derives a
human-readable title when none is supplied (from file path + preset
metadata)". -/
def get_generated_title (file_path : String) (p : Preset) : String :=
  file_path ++ " " ++ p.ext

/-- Modelled from the spec: `AbstractLUTHelper.get_export_message`
(utils/abstract_lut_helper.py, not under src/) — §4.5: "returns a success
message string naming the output path". -/
def get_export_message (file_path : String) : String :=
  "a new LUT was written in " ++ file_path

/-- Modelled from the spec: `AbstractLUTHelper._get_1d_data`
(utils/abstract_lut_helper.py, not under src/) — §4.3 `sample_1d`: domain
coordinates `n / (count - 1)`, each evaluated as `transform([x, x, x])`;
the export sample count is derived from the preset (2^bit-depth samples
when a bit depth is declared, cf. §3 "output bit depth"). -/
def get_1d_data (processor : RGB → RGB) (p : Preset) : List RGB :=
  let count : ℕ := 2 ^ (p.out_bitdepth.getD 1)
  let max_value : ℚ := (count : ℚ) - 1
  (List.range count).map
    (fun n => processor ((n : ℚ) / max_value, (n : ℚ) / max_value, (n : ℚ) / max_value))

/-- Modelled from the spec: `AbstractLUTHelper._get_3d_data`
(utils/abstract_lut_helper.py, not under src/) — §4.3 `sample_3d`: a
`cube_size^3` lattice with each axis coordinate `i / (cube_size - 1)`,
walked outer-to-inner R, G, B, each point evaluated by the transform. -/
def get_3d_data (processor : RGB → RGB) (p : Preset) : List RGB :=
  let n := p.cube_size
  let max_value : ℚ := (n : ℚ) - 1
  (List.range n).flatMap (fun r =>
    (List.range n).flatMap (fun g =>
      (List.range n).map (fun b =>
        processor ((r : ℚ) / max_value, (g : ℚ) / max_value, (b : ℚ) / max_value))))

/-! ## utils/cube_helper.py -/

/-- Source: `cube_helper.py` line 24. -/
def CUBE_1D : String := "LUT_1D_SIZE"

/-- Source: `cube_helper.py` line 25. -/
def CUBE_3D : String := "LUT_3D_SIZE"

/-- Source: `CubeLutHelper.__init__` (cube_helper.py lines 32-44): the
built-in default preset of the Cube format. -/
def cube_default_preset : Preset where
  ptype := "default"
  ext := ".cube"
  input_range := (PyNum.pfloat 0, PyNum.pfloat 1)
  output_range := (PyNum.pfloat 0, PyNum.pfloat 1)
  out_bitdepth := some 12
  cube_size := 17
  title := some "Cube LUT"
  comment := "Generated by ColorPipe-tools, cube_helper 0.2"
  version := "1"

/-- Source: `CubeLutHelper._get_range_message` (cube_helper.py lines
94-104), with the `format` placeholder resolved. -/
def get_range_message (output_range : PyNum × PyNum) : String :=
  "Cube output range is expected to be float." ++
    " Ex: [0.0, 1.0] or [-0.25, 2.0].\nYour range " ++
    "[" ++ output_range.1.render ++ ", " ++ output_range.2.render ++ "]"

/-- The warning text printed for a suspiciously large float range
(cube_helper.py lines 117-119, with the `format` placeholder resolved). -/
def big_range_message (output_range : PyNum × PyNum) : String :=
  get_range_message output_range ++ " seems too big !\n" ++
    "Please check this, if the LUT isn\x27t what you expected"

/-- Source: `CubeLutHelper._check_output_range` (cube_helper.py lines
106-120).  Raises `CubeHelperException` on an integer-typed output range
(after printing an error message); prints a warning when the float upper
bound exceeds `FLOAT_BOUNDARY`; otherwise does nothing. -/
def check_output_range (p : Preset) : Outcome :=
  let output_range := p.output_range
  if is_output_int p then
    let message := get_range_message output_range
    ([Event.errorMsg message], some (PyError.cubeHelperException message))
  else if FLOAT_BOUNDARY < output_range.2.toRat then
    ([Event.warn (big_range_message output_range)], none)
  else
    ([], none)

/-- Source: `CubeLutHelper._write_1d_2d_lut` (cube_helper.py lines 49-67).
Order of effects as in the source: output-range check first, then data
generation, then the file is opened and the title line, the
`LUT_1D_SIZE n` line and one line per sample are written. -/
def write_1d_2d_lut (processor : RGB → RGB) (file_path : String)
    (preset : Preset) (line_function : Preset → RGB → String) : Outcome :=
  match check_output_range preset with
  | (cev, some e) => (cev, some e)
  | (cev, none) =>
    let data := get_1d_data processor preset
    let title :=
      match preset.title with
      | none => get_generated_title file_path preset
      | some t => t
    (cev ++ [Event.openFile file_path,
             Event.writeStr ("TITLE " ++ title ++ "\n\n"),
             Event.writeStr (CUBE_1D ++ " " ++ toString data.length ++ "\n\n")]
         ++ data.map (fun rgb => Event.writeStr (line_function preset rgb))
         ++ [Event.closeFile, Event.success (get_export_message file_path)],
     none)

/-- Modelled from the spec: `AbstractLUTHelper.write_2d_lut`
(utils/abstract_lut_helper.py, not under src/) — the shared 2D write path:
`_write_1d_2d_lut` with the per-sample RGB line formatter (§4.5: "one line
per Sample in the fixed iteration order"). -/
def write_2d_lut (processor : RGB → RGB) (file_path : String)
    (preset : Preset) : Outcome :=
  write_1d_2d_lut processor file_path preset get_rgb_value_line

/-- Source: `CubeLutHelper.write_1d_lut` (cube_helper.py lines 69-72):
prints a warning and re-routes to the 2D path. -/
def write_1d_lut (processor : RGB → RGB) (file_path : String)
    (preset : Preset) : Outcome :=
  let res := write_2d_lut processor file_path preset
  (Event.warn ("1D LUT is not supported in Cube format" ++
      " --> Switch to 2D LUT.") :: res.1,
   res.2)

/-- Source: `CubeLutHelper.write_3d_lut` (cube_helper.py lines 74-92).
Order of effects as in the source: the 3D data and the preset fields are
read, then the file is opened (`open(file_path, 'w+')`, line 78), and only
then is the output range checked (line 80); on success the title line, the
`LUT_3D_SIZE n` line and one line per sample are written. -/
def write_3d_lut (processor : RGB → RGB) (file_path : String)
    (preset : Preset) : Outcome :=
  let data := get_3d_data processor preset
  let cube_size := preset.cube_size
  let opened := [Event.openFile file_path]
  match check_output_range preset with
  | (cev, some e) => (opened ++ cev, some e)
  | (cev, none) =>
    let title :=
      match preset.title with
      | none => get_generated_title file_path preset
      | some t => t
    (opened ++ cev
      ++ [Event.writeStr ("TITLE " ++ title ++ "\n\n"),
          Event.writeStr (CUBE_3D ++ " " ++ toString cube_size ++ "\n\n")]
      ++ data.map (fun rgb => Event.writeStr (get_rgb_value_line preset rgb))
      ++ [Event.closeFile, Event.success (get_export_message file_path)],
     none)

/-! ## plotThatLut/plot_that_lut.py -/

/-- The domain coordinate of sample `n` out of `count` in the 1D sampling
loop: `x = n / max_value` with `max_value = samples_count - 1.0`
(plot_that_lut.py lines 115 and 122). -/
def curve_coord (count n : ℕ) : ℚ := (n : ℚ) / ((count : ℚ) - 1)

/-- The body of `plot_curve`'s sampling loop (plot_that_lut.py lines
121-127): `x = n / max_value`, then `res = processor.applyRGB([x, x, x])`;
the domain coordinate and the three channel outputs are collected. -/
def curve_step (processor : RGB → RGB) (max_value : ℚ) (n : ℕ) :
    Except PyError (ℚ × RGB) :=
  match pydiv (n : ℚ) max_value with
  | Except.error e => Except.error e
  | Except.ok x => Except.ok (x, processor (x, x, x))

/-- Source: the sampling loop of `plot_curve` (plot_that_lut.py lines
114-127): for `n in range(0, samples_count)`, run `curve_step` with
`max_value = samples_count - 1.0`, collecting results in iteration order.
Python raises `ZeroDivisionError` on a zero float divisor. -/
def plot_curve_samples (processor : RGB → RGB) (samples_count : ℕ) :
    Except PyError (List (ℚ × RGB)) :=
  let max_value : ℚ := (samples_count : ℚ) - 1
  map_except (curve_step processor max_value) (List.range samples_count)

/-- The lattice point and transform output of `plot_cube`'s innermost loop
body at indices `(r, g, b)` (plot_that_lut.py lines 176-181), for a given
`cube_size`. -/
def cube_sample (processor : RGB → RGB) (cube_size r g b : ℕ) : RGB × RGB :=
  let max_value : ℚ := (cube_size : ℚ) - 1
  let p : RGB := ((r : ℚ) / max_value, (g : ℚ) / max_value, (b : ℚ) / max_value)
  (p, processor p)

/-- The body of `plot_cube`'s innermost loop (plot_that_lut.py lines
176-185): normalize the three indices by `max_value` and apply the
processor; any of the three divisions can raise. -/
def cube_step (processor : RGB → RGB) (max_value : ℚ) (r g b : ℕ) :
    Except PyError (RGB × RGB) :=
  match pydiv (r : ℚ) max_value with
  | Except.error e => Except.error e
  | Except.ok nr =>
    match pydiv (g : ℚ) max_value with
    | Except.error e => Except.error e
    | Except.ok ng =>
      match pydiv (b : ℚ) max_value with
      | Except.error e => Except.error e
      | Except.ok nb => Except.ok ((nr, ng, nb), processor (nr, ng, nb))

/-- Concatenating the per-iteration result lists of a nested loop, once the
outer loop has finished without an exception. -/
def flatten_except {α : Type} (x : Except PyError (List (List α))) :
    Except PyError (List α) :=
  match x with
  | Except.ok ll => Except.ok ll.flatten
  | Except.error e => Except.error e

/-- Source: the sampling loops of `plot_cube` (plot_that_lut.py lines
165-187): `for r in input_range: for g in input_range: for b in
input_range`, running `cube_step` with `max_value = cube_size - 1.0` and
collecting results in iteration order (R outermost, B innermost). -/
def plot_cube_samples (processor : RGB → RGB) (cube_size : ℕ) :
    Except PyError (List (RGB × RGB)) :=
  let max_value : ℚ := (cube_size : ℚ) - 1
  flatten_except (map_except (fun r =>
    flatten_except (map_except (fun g =>
        map_except (fun b => cube_step processor max_value r g b)
          (List.range cube_size))
      (List.range cube_size)))
    (List.range cube_size))

/-- The fully-evaluated sample list of `plot_cube` for `cube_size ≥ 2`:
the nested R-outermost / B-innermost iteration. -/
def cube_pure (processor : RGB → RGB) (cube_size : ℕ) : List (RGB × RGB) :=
  (List.range cube_size).flatMap (fun r =>
    (List.range cube_size).flatMap (fun g =>
      (List.range cube_size).map (fun b =>
        cube_sample processor cube_size r g b)))

/-- Python truthiness of an optional string argument: `None` and the empty
string are falsy. -/
def py_falsy : Option String → Bool
  | none => true
  | some s => s = ""

/-- Source: the plot-type resolution of `plot_that_lut` (plot_that_lut.py
lines 278-282): when `plot_type` is unset or `'auto'`, resolve to `'cube'`
when the processor reports channel crosstalk or the extension is
`'.spimtx'`, else to `'curve'`; an explicitly given plot type is kept. -/
def resolve_plot_type (plot_type : Option String) (has_crosstalk : Bool)
    (fileext : String) : String :=
  if py_falsy plot_type || plot_type == some "auto" then
    if has_crosstalk || fileext == ".spimtx" then "cube" else "curve"
  else
    plot_type.getD ""

/-! ## lutLab/lut_to_lut.py -/

/-- An OpenColorIO interpolation mode as requested by `lut_to_lut`
(`Constants.INTERP_LINEAR` / `Constants.INTERP_TETRAHEDRAL`). -/
inductive Interp : Type
  | linear
  | tetrahedral
  deriving DecidableEq

/-- One observable step of `lut_to_lut`: building an OCIO processor for the
input files with a given interpolation mode, or invoking the resolved write
function with the current processor. -/
inductive LEvent : Type
  | createProcessor (i : Interp) (inverse : Bool)
  | writeLut (i : Interp)
  deriving DecidableEq

/-- Source: `lut_to_lut` (lut_to_lut.py lines 83-126), its control skeleton
over the externally supplied capabilities.  `preset`, `out_type` and
`out_format` are the like-named arguments (`none` models Python `None`);
`is_3d` is the value of the external query `is_3d_lut(processor,
inlutfiles[0])` (utils/ocio_helper.py, a black-box capability per §6).
With a preset, the write function comes from `get_write_function`;
otherwise `out_type` and `out_format` must both be given or
`LutToLutException` is raised before anything else runs; the processor is
first built with `INTERP_LINEAR` and rebuilt with `INTERP_TETRAHEDRAL` for
a 3D input before the write function is invoked.  (Path resolution and
verbose printing perform no sampling or file output and are omitted.) -/
def lut_to_lut (preset : Option Preset) (out_type out_format : Option String)
    (is_3d inverse : Bool) : List LEvent × Option PyError :=
  let proceed : List LEvent × Option PyError :=
    ([LEvent.createProcessor Interp.linear inverse] ++
      (if is_3d then [LEvent.createProcessor Interp.tetrahedral inverse] else []) ++
      [LEvent.writeLut (if is_3d then Interp.tetrahedral else Interp.linear)],
     none)
  match preset with
  | some _ => proceed
  | none =>
    if out_type = none ∨ out_format = none then
      ([], some (PyError.lutToLutException
        "Specify out_type/out_format or a preset."))
    else
      proceed

/-! ## Concrete inputs used by the claim theorems -/

/-- A preset with an integer-typed output range (e.g. a 12-bit `[0, 4095]`
range), as produced for integer-range formats; everything else as in the
Cube default. -/
def int_range_preset : Preset :=
  { cube_default_preset with
    output_range := (PyNum.pint 0, PyNum.pint 4095)
    cube_size := 3 }

/-- A float preset whose upper bound exceeds the sanity threshold. -/
def big_range_preset : Preset :=
  { cube_default_preset with
    output_range := (PyNum.pfloat 0, PyNum.pfloat 1000)
    out_bitdepth := none }

/-- The preset of claim C2: `{type: default, ext: .cube, in_range: [0, 1],
out_range: [0, 1], cube_size: 3}` (no title supplied). -/
def c2_preset : Preset where
  ptype := "default"
  ext := ".cube"
  input_range := (PyNum.pfloat 0, PyNum.pfloat 1)
  output_range := (PyNum.pfloat 0, PyNum.pfloat 1)
  out_bitdepth := none
  cube_size := 3
  title := none
  comment := ""
  version := "1"

/-! ## Helper lemmas -/

/-- A loop whose body never raises collects exactly the mapped values. -/
theorem map_except_ok {α β : Type} (f : α → Except PyError β) (g : α → β) :
    ∀ l : List α, (∀ a ∈ l, f a = Except.ok (g a)) →
      map_except f l = Except.ok (l.map g)
  | [], _ => rfl
  | a :: l, h => by
    have ha := h a (List.mem_cons_self a l)
    have hl := map_except_ok f g l (fun x hx => h x (List.mem_cons_of_mem a hx))
    simp [map_except, ha, hl]

/-- Length of a nested loop's collected output when every inner pass
produces the same number of results. -/
theorem flatMap_length_const {α β : Type} (l : List α) (f : α → List β)
    (m : ℕ) (h : ∀ a ∈ l, (f a).length = m) :
    (l.flatMap f).length = l.length * m := by
  induction l with
  | nil => simp
  | cons a t ih =>
    have ha := h a (List.mem_cons_self a t)
    have ht := ih (fun x hx => h x (List.mem_cons_of_mem a hx))
    simp [List.flatMap_cons, ha, ht]
    ring

/-- Indexing into a nested loop's collected output: the element at
`r * m + j` is element `j` of pass `r`, when every pass has length `m`. -/
theorem flatMap_range_getElem {α : Type} (f : ℕ → List α) (m : ℕ)
    (h : ∀ r, (f r).length = m) :
    ∀ n r j : ℕ, r < n → j < m →
      ((List.range n).flatMap f)[r * m + j]? = (f r)[j]?
  | 0, r, j, hr, _ => absurd hr (Nat.not_lt_zero r)
  | n + 1, r, j, hr, hj => by
    have hlen : ((List.range n).flatMap f).length = n * m :=
      flatMap_length_const (List.range n) f m (fun a _ => h a) |>.trans
        (by rw [List.length_range])
    rw [List.range_succ, List.flatMap_append]
    rcases Nat.lt_or_ge r n with hrn | hrn
    · have hidx : r * m + j < n * m := by
        calc r * m + j < r * m + m := Nat.add_lt_add_left hj _
        _ = (r + 1) * m := by ring
        _ ≤ n * m := Nat.mul_le_mul_right m hrn
      rw [List.getElem?_append_left (by rw [hlen]; exact hidx)]
      exact flatMap_range_getElem f m h n r j hrn hj
    · have hreq : r = n := Nat.le_antisymm (Nat.lt_succ_iff.mp hr) hrn
      subst hreq
      rw [List.getElem?_append_right (by rw [hlen]; exact Nat.le_add_right _ _)]
      rw [hlen]
      simp [Nat.add_sub_cancel_left]

/-! ## Claim theorems -/

/-- Claim C1: the claim states that for every preset whose output range is
integer-typed, both Cube write paths raise the range error before the
output file is opened or any byte is written.  This holds for
`_write_1d_2d_lut` but not for `write_3d_lut`: the source opens the
destination with `open(file_path, 'w+')` (line 78, creating or truncating
the file) before `_check_output_range` runs (line 80), so the raise leaves
an empty file behind.  At the concrete integer-range preset, the 1D/2D
path's trace holds no file event at all, while the 3D path's trace opens
the file first and only then prints the error and raises. -/
theorem write_3d_lut_opens_file_before_range_check :
    (write_1d_2d_lut idT "out.cube" int_range_preset get_rgb_value_line
      = ([Event.errorMsg (get_range_message (PyNum.pint 0, PyNum.pint 4095))],
         some (PyError.cubeHelperException
           (get_range_message (PyNum.pint 0, PyNum.pint 4095)))))
  ∧ (write_3d_lut idT "out.cube" int_range_preset
      = ([Event.openFile "out.cube",
          Event.errorMsg (get_range_message (PyNum.pint 0, PyNum.pint 4095))],
         some (PyError.cubeHelperException
           (get_range_message (PyNum.pint 0, PyNum.pint 4095))))) :=
  ⟨rfl, rfl⟩

/-- Claim C6: `write_1d_lut` never fails on the unsupported 1D topology; it
prints a non-fatal warning and behaves exactly as `write_2d_lut` on the
same arguments: same trailing events, same exception status, and the same
bytes written to the file. -/
theorem write_1d_lut_substitutes_2d (processor : RGB → RGB)
    (file_path : String) (preset : Preset) :
    write_1d_lut processor file_path preset
      = (Event.warn "1D LUT is not supported in Cube format --> Switch to 2D LUT."
           :: (write_2d_lut processor file_path preset).1,
         (write_2d_lut processor file_path preset).2)
  ∧ file_content (write_1d_lut processor file_path preset).1
      = file_content (write_2d_lut processor file_path preset).1 :=
  ⟨rfl, rfl⟩

/-- Claim C8: `lut_to_lut` first builds the processor with linear
interpolation; when the input is detected as a 3D LUT it rebuilds the
processor with tetrahedral interpolation before the write function runs, so
the write (which samples the transform) never uses linear interpolation on
a 3D input. -/
theorem lut_to_lut_selects_interpolation (p : Preset)
    (out_type out_format : Option String) (inverse : Bool) :
    ((lut_to_lut (some p) out_type out_format true inverse).1
       = [LEvent.createProcessor Interp.linear inverse,
          LEvent.createProcessor Interp.tetrahedral inverse,
          LEvent.writeLut Interp.tetrahedral])
  ∧ ((lut_to_lut (some p) out_type out_format false inverse).1
       = [LEvent.createProcessor Interp.linear inverse,
          LEvent.writeLut Interp.linear])
  ∧ ∀ is_3d : Bool,
      (lut_to_lut (some p) out_type out_format is_3d inverse).1.getLast?
        = some (LEvent.writeLut
            (if is_3d then Interp.tetrahedral else Interp.linear)) := by
  refine ⟨rfl, rfl, ?_⟩
  intro b
  cases b <;> rfl

/-- Claim C10: with no preset and `out_type` or `out_format` unset,
`lut_to_lut` raises `LutToLutException` before any processor is built or
anything is written (empty trace); with a preset supplied, `out_type` and
`out_format` are not required and no such exception occurs. -/
theorem lut_to_lut_requires_out_type_format (out_type out_format : Option String)
    (is_3d inverse : Bool) (h : out_type = none ∨ out_format = none) :
    (lut_to_lut none out_type out_format is_3d inverse
       = ([], some (PyError.lutToLutException
           "Specify out_type/out_format or a preset.")))
  ∧ ∀ p : Preset, (lut_to_lut (some p) out_type out_format is_3d inverse).2 = none := by
  constructor
  · have hc : (out_type = none ∨ out_format = none) = True := eq_true h
    simp [lut_to_lut, hc]
  · intro p
    rfl

/-- Witness for C10 at a concrete input: `out_type` missing, format
`"cube"`; the call without a preset raises, the call with the Cube default
preset does not. -/
theorem lut_to_lut_requires_out_type_format_witness :
    (lut_to_lut none none (some "cube") false false
       = ([], some (PyError.lutToLutException
           "Specify out_type/out_format or a preset.")))
  ∧ (lut_to_lut (some cube_default_preset) none (some "cube") false false).2 = none :=
  ⟨(lut_to_lut_requires_out_type_format none (some "cube") false false (Or.inl rfl)).1,
   (lut_to_lut_requires_out_type_format none (some "cube") false false
     (Or.inl rfl)).2 cube_default_preset⟩

/-- Claim C7: with the plot type unspecified (or `'auto'`), the resolution
step picks `'cube'` exactly when the processor reports channel crosstalk or
the extension is `'.spimtx'`, and `'curve'` in every other case. -/
theorem resolve_plot_type_auto (plot_type : Option String) (crosstalk : Bool)
    (fileext : String) (h : plot_type = none ∨ plot_type = some "auto") :
    (resolve_plot_type plot_type crosstalk fileext = "cube"
       ↔ (crosstalk = true ∨ fileext = ".spimtx"))
  ∧ (resolve_plot_type plot_type crosstalk fileext = "curve"
       ↔ ¬(crosstalk = true ∨ fileext = ".spimtx")) := by
  rcases h with h | h <;> subst h <;>
    cases crosstalk <;>
      by_cases hx : fileext = ".spimtx" <;>
        simp [resolve_plot_type, py_falsy, hx]

/-- Witness for C7 at concrete inputs: a crosstalking `.cube` transform
resolves to `'cube'`; the earlier disjunct holds by computation. -/
theorem resolve_plot_type_auto_witness :
    (resolve_plot_type none true ".cube" = "cube"
       ↔ (true = true ∨ ".cube" = ".spimtx"))
  ∧ (resolve_plot_type none true ".cube" = "curve"
       ↔ ¬(true = true ∨ ".cube" = ".spimtx")) :=
  resolve_plot_type_auto none true ".cube" (Or.inl rfl)

/-- Claim C5: the Cube output-range check raises (a fatal
`CubeHelperException`, after printing the error) exactly when the preset's
output range is integer-typed; for a float-typed range whose upper bound
exceeds the sanity threshold it only prints a warning, returns normally,
and the 1D/2D write then completes: no exception, and the trace ends with
the success message. -/
theorem check_output_range_behavior (p : Preset) :
    ((check_output_range p).2.isSome = is_output_int p)
  ∧ (is_output_int p = true →
       check_output_range p
         = ([Event.errorMsg (get_range_message p.output_range)],
            some (PyError.cubeHelperException (get_range_message p.output_range))))
  ∧ (is_output_int p = false → FLOAT_BOUNDARY < p.output_range.2.toRat →
       check_output_range p = ([Event.warn (big_range_message p.output_range)], none)
       ∧ ∀ (processor : RGB → RGB) (file_path : String),
           (write_1d_2d_lut processor file_path p get_rgb_value_line).2 = none
           ∧ (write_1d_2d_lut processor file_path p get_rgb_value_line).1.getLast?
               = some (Event.success (get_export_message file_path))) := by
  by_cases hi : is_output_int p
  · refine ⟨by simp [check_output_range, hi], fun _ => by simp [check_output_range, hi], ?_⟩
    intro hfalse
    rw [hi] at hfalse
    exact absurd hfalse (by simp)
  · simp only [Bool.not_eq_true] at hi
    by_cases hb : FLOAT_BOUNDARY < p.output_range.2.toRat
    · have hcheck : check_output_range p
          = ([Event.warn (big_range_message p.output_range)], none) := by
        simp [check_output_range, hi, hb]
      refine ⟨by simp [hcheck, hi], fun ht => absurd ht (by simp [hi]), fun _ _ => ⟨hcheck, ?_⟩⟩
      intro processor file_path
      rw [write_1d_2d_lut, hcheck]
      constructor
      · rfl
      · show (List.getLast? (_ ++ _ ++ _ ++ ([Event.closeFile] ++ [Event.success _]))) = _
        rw [← List.append_assoc, List.getLast?_concat]
    · have hcheck : check_output_range p = ([], none) := by
        simp [check_output_range, hi, hb]
      exact ⟨by simp [hcheck, hi], fun ht => absurd ht (by simp [hi]),
        fun hf hbig => absurd hbig hb⟩

/-- Witness for C5 at a concrete preset (float range `[0.0, 1000.0]`): the
check only warns and the 1D/2D write completes without exception. -/
theorem check_output_range_behavior_witness :
    check_output_range big_range_preset
      = ([Event.warn (big_range_message big_range_preset.output_range)], none)
  ∧ (write_1d_2d_lut idT "big.cube" big_range_preset get_rgb_value_line).2 = none :=
  ⟨((check_output_range_behavior big_range_preset).2.2 rfl (by decide)).1,
   (((check_output_range_behavior big_range_preset).2.2 rfl (by decide)).2
     idT "big.cube").1⟩

/-- Claim C3: for every `count ≥ 2`, the `plot_curve` sampling loop
succeeds and evaluates the transform at exactly `count` domain coordinates
`n / (count - 1)` for `n` in `0 .. count`, as `transform([x, x, x])` with
three channel outputs per point, collected in iteration order; the
coordinates are strictly increasing from `0` to `1` inclusive. -/
theorem plot_curve_sampling (processor : RGB → RGB) (count : ℕ)
    (h : 2 ≤ count) :
    (plot_curve_samples processor count
       = Except.ok ((List.range count).map (fun n =>
           (curve_coord count n,
            processor (curve_coord count n, curve_coord count n,
              curve_coord count n)))))
  ∧ ((List.range count).map (fun n =>
       (curve_coord count n,
        processor (curve_coord count n, curve_coord count n,
          curve_coord count n)))).length = count
  ∧ (∀ i j, i < j → j < count → curve_coord count i < curve_coord count j)
  ∧ curve_coord count 0 = 0
  ∧ curve_coord count (count - 1) = 1 := by
  have hcast : (2 : ℚ) ≤ (count : ℚ) := by exact_mod_cast h
  have hpos : 0 < (count : ℚ) - 1 := by linarith
  have hne : (count : ℚ) - 1 ≠ 0 := ne_of_gt hpos
  refine ⟨?_, by simp, ?_, ?_, ?_⟩
  · rw [plot_curve_samples]
    apply map_except_ok
    intro n _
    rw [curve_step, pydiv, if_neg hne]
    rfl
  · intro i j hij hj
    rw [curve_coord, curve_coord, div_lt_div_iff_of_pos_right hpos]
    exact_mod_cast hij
  · rw [curve_coord]
    simp
  · rw [curve_coord]
    have : ((count - 1 : ℕ) : ℚ) = (count : ℚ) - 1 := by
      have h1 : 1 ≤ count := le_trans (by norm_num) h
      push_cast [h1]
      ring
    rw [this, div_self hne]

/-- Witness for C3 at `count = 5` with the identity transform: the spec's
§8 end-to-end example. -/
theorem plot_curve_sampling_witness :
    (plot_curve_samples idT 5
       = Except.ok ((List.range 5).map (fun n =>
           (curve_coord 5 n,
            idT (curve_coord 5 n, curve_coord 5 n, curve_coord 5 n)))))
  ∧ curve_coord 5 0 = 0
  ∧ curve_coord 5 (5 - 1) = 1 :=
  ⟨(plot_curve_sampling idT 5 (by norm_num)).1,
   (plot_curve_sampling idT 5 (by norm_num)).2.2.2.1,
   (plot_curve_sampling idT 5 (by norm_num)).2.2.2.2⟩

/-- Claim C4: for every `cube_size ≥ 2`, the `plot_cube` sampling loops
succeed and evaluate the transform at exactly `cube_size^3` lattice points
with each axis coordinate `i / (cube_size - 1)`, in the fixed order where
the sample at index `r * cube_size^2 + g * cube_size + b` is the one for
lattice indices `(r, g, b)` (R outermost, B innermost). -/
theorem plot_cube_sampling (processor : RGB → RGB) (cube_size r g b : ℕ)
    (h2 : 2 ≤ cube_size) (hr : r < cube_size) (hg : g < cube_size)
    (hb : b < cube_size) :
    plot_cube_samples processor cube_size
      = Except.ok (cube_pure processor cube_size)
  ∧ (cube_pure processor cube_size).length = cube_size ^ 3
  ∧ (cube_pure processor cube_size)[r * cube_size ^ 2 + g * cube_size + b]?
      = some (cube_sample processor cube_size r g b) := by
  have hcast : (2 : ℚ) ≤ (cube_size : ℚ) := by exact_mod_cast h2
  have hne : (cube_size : ℚ) - 1 ≠ 0 := by
    intro h0
    rw [sub_eq_zero] at h0
    rw [h0] at hcast
    norm_num at hcast
  have hstep : ∀ r' g' b' : ℕ,
      cube_step processor ((cube_size : ℚ) - 1) r' g' b'
        = Except.ok (cube_sample processor cube_size r' g' b') := by
    intro r' g' b'
    rw [cube_step, pydiv, if_neg hne, pydiv, if_neg hne, pydiv, if_neg hne]
    rfl
  have hinner : ∀ r' g' : ℕ,
      map_except (fun b' => cube_step processor ((cube_size : ℚ) - 1) r' g' b')
          (List.range cube_size)
        = Except.ok ((List.range cube_size).map
            (cube_sample processor cube_size r' g')) :=
    fun r' g' => map_except_ok _ _ _ (fun b' _ => hstep r' g' b')
  have hmid : ∀ r' : ℕ,
      map_except (fun g' =>
          map_except (fun b' => cube_step processor ((cube_size : ℚ) - 1) r' g' b')
            (List.range cube_size))
          (List.range cube_size)
        = Except.ok ((List.range cube_size).map (fun g' =>
            (List.range cube_size).map (cube_sample processor cube_size r' g'))) :=
    fun r' => map_except_ok _ _ _ (fun g' _ => hinner r' g')
  have houter :
      map_except (fun r' =>
          flatten_except (map_except (fun g' =>
              map_except (fun b' =>
                  cube_step processor ((cube_size : ℚ) - 1) r' g' b')
                (List.range cube_size))
            (List.range cube_size)))
          (List.range cube_size)
        = Except.ok ((List.range cube_size).map (fun r' =>
            (List.range cube_size).flatMap (fun g' =>
              (List.range cube_size).map (cube_sample processor cube_size r' g')))) := by
    apply map_except_ok
    intro r' _
    rw [hmid r']
    rw [flatten_except]
    rw [List.flatMap_def]
  have hmain : plot_cube_samples processor cube_size
      = Except.ok (cube_pure processor cube_size) := by
    rw [plot_cube_samples, houter, flatten_except, cube_pure, List.flatMap_def]
  have hinlen : ∀ r' : ℕ,
      ((List.range cube_size).flatMap (fun g' =>
        (List.range cube_size).map (cube_sample processor cube_size r' g'))).length
        = cube_size * cube_size := by
    intro r'
    rw [flatMap_length_const _ _ cube_size (fun g' _ => by simp)]
    simp
  have hlen : (cube_pure processor cube_size).length = cube_size ^ 3 := by
    rw [cube_pure,
      flatMap_length_const _ _ (cube_size * cube_size) (fun r' _ => hinlen r')]
    simp
    ring
  refine ⟨hmain, hlen, ?_⟩
  have hjlt : g * cube_size + b < cube_size * cube_size := by
    calc g * cube_size + b < g * cube_size + cube_size := Nat.add_lt_add_left hb _
    _ = (g + 1) * cube_size := by ring
    _ ≤ cube_size * cube_size := Nat.mul_le_mul_right cube_size hg
  have hidx : r * cube_size ^ 2 + g * cube_size + b
      = r * (cube_size * cube_size) + (g * cube_size + b) := by ring
  rw [cube_pure, hidx,
    flatMap_range_getElem _ (cube_size * cube_size) hinlen cube_size r
      (g * cube_size + b) hr hjlt,
    flatMap_range_getElem _ cube_size (fun g' => by simp) cube_size g b hg hb,
    List.getElem?_map, List.getElem?_range hb]
  rfl

/-- Witness for C4 at `cube_size = 2`, `(r, g, b) = (1, 0, 1)` with the
identity transform. -/
theorem plot_cube_sampling_witness :
    plot_cube_samples idT 2 = Except.ok (cube_pure idT 2)
  ∧ (cube_pure idT 2).length = 2 ^ 3
  ∧ (cube_pure idT 2)[1 * 2 ^ 2 + 0 * 2 + 1]? = some (cube_sample idT 2 1 0 1) :=
  plot_cube_sampling idT 2 1 0 1 (by norm_num) (by norm_num) (by norm_num)
    (by norm_num)

/-- Claim C9 counterexample: the claim states that every `count < 2` fails
with an `InvalidSampleCount` error.  The source has no such validation: at
`count = 1` the loop body computes `0 / 0.0` and Python raises
`ZeroDivisionError` (an unrelated error), and at `count = 0` the loop body
never runs and the sampling succeeds with no samples at all. -/
theorem plot_curve_count_below_two_no_validation :
    plot_curve_samples idT 1 = Except.error PyError.zeroDivisionError
  ∧ plot_curve_samples idT 0 = Except.ok [] := by
  constructor
  · have h0 : ((1 : ℕ) : ℚ) - 1 = 0 := by norm_num
    rw [plot_curve_samples]
    rw [show List.range 1 = [0] from rfl]
    rw [map_except, curve_step, pydiv, if_pos h0]
  · rfl

/-- Claim C9 amended: for `count = 1`, 1D sampling fails with
`ZeroDivisionError` from the `n / (count - 1)` division, and for
`count = 0` it succeeds with an empty sample list; there is no dedicated
sample-count validation. -/
theorem plot_curve_small_count_behavior (processor : RGB → RGB) :
    plot_curve_samples processor 1 = Except.error PyError.zeroDivisionError
  ∧ plot_curve_samples processor 0 = Except.ok [] := by
  constructor
  · have h0 : ((1 : ℕ) : ℚ) - 1 = 0 := by norm_num
    rw [plot_curve_samples]
    rw [show List.range 1 = [0] from rfl]
    rw [map_except, curve_step, pydiv, if_pos h0]
  · rfl

/-- Claim C2 counterexample: the claim states the produced file's first
line is `LUT_3D_SIZE 3`.  For the identity transform and the C2 preset the
first line of the written content is the TITLE line (the source writes
`TITLE {title}\n\n` before the size line), not `LUT_3D_SIZE 3`. -/
theorem write_3d_first_line_is_title :
    (lines_of (file_content (write_3d_lut idT "identity.cube" c2_preset).1)).head?
      = some "TITLE identity.cube .cube"
  ∧ "TITLE identity.cube .cube" ≠ "LUT_3D_SIZE 3" := by
  constructor
  · rfl
  · decide

/-- Claim C2 amended: for the identity transform and the preset
`{type: default, ext: .cube, in_range: [0, 1], out_range: [0, 1],
cube_size: 3}`, `write_3d_lut` succeeds and writes, in order: a TITLE line
followed by a blank line, the line `LUT_3D_SIZE 3` followed by a blank
line, and then exactly 27 data lines — one per lattice sample in the fixed
R-outermost order — whose first sample maps to the values `0 0 0` and
whose last sample maps to the values `1 1 1` (the `[0, 1]` float output
range maps values identically). -/
theorem write_3d_identity_cube3 :
    (write_3d_lut idT "identity.cube" c2_preset).2 = none
  ∧ (write_3d_lut idT "identity.cube" c2_preset).1
      = [Event.openFile "identity.cube",
         Event.writeStr "TITLE identity.cube .cube\n\n",
         Event.writeStr "LUT_3D_SIZE 3\n\n"]
        ++ (get_3d_data idT c2_preset).map
            (fun rgb => Event.writeStr (get_rgb_value_line c2_preset rgb))
        ++ [Event.closeFile, Event.success (get_export_message "identity.cube")]
  ∧ (get_3d_data idT c2_preset).length = 27
  ∧ (get_3d_data idT c2_preset).head? = some (0, 0, 0)
  ∧ (get_3d_data idT c2_preset).getLast? = some (1, 1, 1)
  ∧ (∀ v : ℚ, to_output_domain v c2_preset.output_range none = v) := by
  refine ⟨rfl, rfl, rfl, ?_, ?_, ?_⟩
  · rw [get_3d_data]
    rw [show List.range c2_preset.cube_size = [0, 1, 2] from rfl]
    simp [idT]
  · rw [get_3d_data]
    rw [show List.range c2_preset.cube_size = [0, 1, 2] from rfl]
    simp [idT]
    norm_num [c2_preset]
  · intro v
    rw [to_output_domain]
    show (0 : ℚ) + v * (1 - 0) = v
    ring
